import Mathlib

/-!
Verification of the BoatFanControl firmware core: the per-channel sample
statistics and trimmed averaging, the three-state power-mode machine with
its auto-resume timer, and the fan decision logic.  The repository holds
two firmware variants of the same loop: the 5-sample variant
(Software/BoatFanControl/BoatFanControl.ino) and the 10-sample variant
(Code/BoatFanControl/BoatFanControl.ino).  Each variant is embedded in its
own namespace, `Software` and `Code`, with the pure per-cycle work of
`loop()` rendered as a step function over an explicit cycle state.
-/

/-- Modulus of the AVR `unsigned int` type (16 bits), the type of the
running totals and of the fan candidate arithmetic. -/
def U16 : Nat := 65536

/-- Modulus of the AVR `unsigned long` type (32 bits), the type returned
by `millis()` and of the timestamp arithmetic. -/
def U32 : Nat := 4294967296

/-- Arduino `constrain(x, lo, hi)`: `x` if it lies in `[lo, hi]`, else the
nearer bound (the low test is performed first, as in the macro). -/
def constrain (x lo hi : Int) : Int :=
  if x < lo then lo else if hi < x then hi else x

/-- Power states of the firmware, from `enum powerstates {off, low, high}`.
Both variants declare the same enumeration with initial value `high`. -/
inductive Powerstates where
  | off
  | low
  | high
  deriving DecidableEq

/-- One step of the fixed button rotation `off -> low -> high -> off`,
the transition performed by the `switch (power)` block of both variants. -/
def Powerstates.next : Powerstates → Powerstates
  | Powerstates.off => Powerstates.low
  | Powerstates.low => Powerstates.high
  | Powerstates.high => Powerstates.off

/-- Accumulator of the per-channel statistics loop: the running total and
the running maximum and minimum seen so far. -/
structure Stats where
  tot : Nat
  mx : Nat
  mn : Nat
  deriving DecidableEq

/-- One iteration of the statistics loop body: add the sample to the total
and update the running extrema, as in
`ttot += t[i]; if (t[i] < tmin) tmin = t[i]; if (t[i] > tmax) tmax = t[i];`. -/
def statsStep (a : Stats) (x : Nat) : Stats :=
  { tot := a.tot + x, mx := max a.mx x, mn := min a.mn x }

/-- The statistics pass over one channel buffer.  The loop starts from
total 0, maximum 0 and a channel-specific initial minimum (255 for the
byte channels, 65534 for the voltage channel).  All totals stay far below
the 16-bit modulus for clamped channel values, so plain naturals render
the `unsigned int` accumulators exactly. -/
def stats (l : List Nat) (mnInit : Nat) : Stats :=
  l.foldl statsStep { tot := 0, mx := 0, mn := mnInit }

/-- Rounding division: the integer nearest to `p / q`, halves rounded up,
which is away from zero since all operands are non-negative.  This renders
the source expression `round(float(p) / q)` exactly on the ranges in play:
`p` is far below 2 to the 24 so `float(p)` is exact, and for the odd
divisor 3 the exact quotient is never a half-integer, so rounding the
float quotient agrees with rounding the exact rational quotient. -/
def roundDiv (p q : Nat) : Nat := (2 * p + q) / (2 * q)

/-- Maximum of a list of naturals (0 for the empty list). -/
def listMax (l : List Nat) : Nat := l.foldl max 0

/-- Minimum of a non-empty list of naturals (0 for the empty list). -/
def listMin : List Nat → Nat
  | [] => 0
  | x :: xs => xs.foldl min x

/-- External inputs consumed by one pass of `loop()`: whether the polling
window observed a debounced button press, the current `millis()` time (as
an ideal, unwrapped millisecond count), the raw sensor readings handed to
`constrain`, and whether the DHT status string compared equal to "OK". -/
structure CycleInput where
  userPress : Bool
  now : Nat
  tempRaw : Int
  humiRaw : Int
  voltRaw : Int
  ok : Bool

namespace Software

def FAN_OFF : Nat := 0

def FAN_LOW : Nat := 95

def FAN_HIGH : Nat := 255

def LED_OFF : Nat := 0

def LED_LOW : Nat := 10

def LED_HIGH : Nat := 255

def VIN_LOW : Nat := 222

def VIN_GOOD : Nat := 235

def TEMP_TRIGGER : Nat := 28

def HUMI_TRIGGER : Nat := 70

def TEMP_RISE : Nat := 40

def HUMI_RISE : Nat := 8

def RESUMETIME : Nat := 10800000

/-- Mutable state carried across iterations of `loop()` in the 5-sample
variant: the power mode, the `lastButton` timestamp, the persistent LED
level, the three 5-entry channel buffers, the shared write index and the
last written fan duty. -/
structure CycleState where
  power : Powerstates
  lastButton : Nat
  led : Nat
  t : List Nat
  h : List Nat
  v : List Nat
  index : Nat
  fan : Nat
  deriving DecidableEq

/-- The auto-resume test
`(power != high) && (millis() - lastButton > RESUMETIME)`.  Times are
ideal millisecond counts; `(now - lastButton) % U32` is the value of the
32-bit unsigned difference whenever `lastButton ≤ now`, which holds of
every stored timestamp since `lastButton` only ever records a past
`millis()` value. -/
def autoResume (power : Powerstates) (lastButton now : Nat) : Bool :=
  if power ≠ Powerstates.high ∧ RESUMETIME < (now - lastButton) % U32 then true else false

/-- The button block of `loop()`: the button flag is the polled press
or-ed with the auto-resume test; when set, the `switch (power)` rotates
the mode, selects the LED level for the new mode, and then
`lastButton = millis();` records the transition time. -/
def processButton (s : CycleState) (userPress : Bool) (now : Nat) : CycleState :=
  if userPress || autoResume s.power s.lastButton now then
    match s.power with
    | Powerstates.off => { s with power := Powerstates.low, led := LED_LOW, lastButton := now }
    | Powerstates.low => { s with power := Powerstates.high, led := LED_HIGH, lastButton := now }
    | Powerstates.high => { s with power := Powerstates.off, led := LED_OFF, lastButton := now }
  else s

/-- The reading block of `loop()`: the raw readings are clamped
(temperature to 0..40, humidity to 0..100, voltage to 100..350), and on a
good DHT status the shared index advances modulo 5 and all three buffers
are overwritten at the new index; on a bad status the buffers and index
are left untouched (the error is only flashed on the LED). -/
def readStep (s : CycleState) (i : CycleInput) : CycleState :=
  let temp := (constrain i.tempRaw 0 40).toNat
  let humi := (constrain i.humiRaw 0 100).toNat
  let volt := (constrain i.voltRaw 100 350).toNat
  if i.ok then
    let idx := (s.index + 1) % 5
    { s with index := idx, t := s.t.set idx temp, h := s.h.set idx humi, v := s.v.set idx volt }
  else s

/-- The per-channel trimmed average of the 5-sample variant:
`round(float(tot - max - min) / 3)`. -/
def average (l : List Nat) (mnInit : Nat) : Nat :=
  let a := stats l mnInit
  roundDiv (a.tot - a.mx - a.mn) 3

/-- The fan decision of the 5-sample variant, exactly the three-branch
cascade of the source.  The ramp arithmetic is 16-bit unsigned, hence the
reduction modulo `U16`; the subtraction `tempAvg - TEMP_TRIGGER` sits
under the guard `TEMP_TRIGGER ≤ tempAvg`, so truncated subtraction is
exact there. -/
def decide (tempAvg humiAvg voltAvg : Nat) (power : Powerstates) : Nat :=
  if voltAvg < VIN_LOW ∨ power = Powerstates.off then
    FAN_OFF
  else if voltAvg < VIN_GOOD ∨ power = Powerstates.low then
    if TEMP_TRIGGER < tempAvg ∨ HUMI_TRIGGER < humiAvg then FAN_LOW else FAN_OFF
  else
    let fanT := if TEMP_TRIGGER ≤ tempAvg then
        min ((FAN_LOW + (tempAvg - TEMP_TRIGGER) * TEMP_RISE) % U16) FAN_HIGH
      else 0
    let fanH := if HUMI_TRIGGER ≤ humiAvg then
        min ((FAN_LOW + (humiAvg - HUMI_TRIGGER) * HUMI_RISE) % U16) FAN_HIGH
      else 0
    max fanT fanH

/-- One full pass of `loop()` in the 5-sample variant: button processing
(including auto-resume), the reading block, the three trimmed averages and
the fan decision.  The second component reports whether the fault
indication (the ten-flash LED sequence) was emitted this cycle. -/
def cycleStep (s : CycleState) (i : CycleInput) : CycleState × Bool :=
  let s1 := processButton s i.userPress i.now
  let s2 := readStep s1 i
  let tempAvg := average s2.t 255
  let humiAvg := average s2.h 255
  let voltAvg := average s2.v 65534
  ({ s2 with fan := Software.decide tempAvg humiAvg voltAvg s2.power }, !i.ok)

end Software

namespace Code

def FAN_OFF : Nat := 0

def FAN_LOW : Nat := 96

def FAN_HIGH : Nat := 255

def LED_OFF : Nat := 0

def LED_LOW : Nat := 10

def LED_HIGH : Nat := 255

def VIN_LOW : Nat := 222

def VIN_GOOD : Nat := 235

/-- Declared as the temperature threshold in the 10-sample variant, but
never read by any of its logic. -/
def TEMP_MAX : Nat := 28

/-- Declared as the humidity threshold in the 10-sample variant, but
never read by any of its logic. -/
def HUMI_MAX : Nat := 75

/-- Mutable state carried across iterations of `loop()` in the 10-sample
variant.  This variant has no `lastButton` timestamp and no resume timer. -/
structure CycleState where
  power : Powerstates
  led : Nat
  t : List Nat
  h : List Nat
  v : List Nat
  index : Nat
  fan : Nat
  deriving DecidableEq

/-- The button block of the 10-sample variant: on a press the
`switch (power)` rotates the mode and selects the LED level; there is no
timestamp and no auto-resume synthesis. -/
def processButton (s : CycleState) (userPress : Bool) : CycleState :=
  if userPress then
    match s.power with
    | Powerstates.off => { s with power := Powerstates.low, led := LED_LOW }
    | Powerstates.low => { s with power := Powerstates.high, led := LED_HIGH }
    | Powerstates.high => { s with power := Powerstates.off, led := LED_OFF }
  else s

/-- The reading block of the 10-sample variant: clamps (voltage to 0..350
here), then on a good DHT status advances the shared index modulo 10 and
overwrites all three buffers at the new index; on a bad status the buffers
and index are untouched (the error is only flashed on the LED). -/
def readStep (s : CycleState) (i : CycleInput) : CycleState :=
  let temp := (constrain i.tempRaw 0 40).toNat
  let humi := (constrain i.humiRaw 0 100).toNat
  let volt := (constrain i.voltRaw 0 350).toNat
  if i.ok then
    let idx := (s.index + 1) % 10
    { s with index := idx, t := s.t.set idx temp, h := s.h.set idx humi, v := s.v.set idx volt }
  else s

/-- The per-channel trimmed average of the 10-sample variant:
`ceil(tt / 8)`, where `tt / 8` is an integer division whose result is
already integral, so the `ceil` has no effect and the quotient truncates
toward zero. -/
def average (l : List Nat) (mnInit : Nat) : Nat :=
  let a := stats l mnInit
  (a.tot - a.mx - a.mn) / 8

/-- The fan decision of the 10-sample variant.  Unlike the 5-sample
variant it reads only the voltage average and the power mode: the middle
branch sets `FAN_LOW` and the final branch sets `FAN_HIGH` with no
temperature or humidity test and no ramp (the temperature and humidity
averages are in scope in the source but unused by this block). -/
def decide (tempAvg humiAvg voltAvg : Nat) (power : Powerstates) : Nat :=
  if voltAvg < VIN_LOW ∨ power = Powerstates.off then FAN_OFF
  else if voltAvg < VIN_GOOD ∨ power = Powerstates.low then FAN_LOW
  else FAN_HIGH

/-- One full pass of `loop()` in the 10-sample variant.  The second
component reports whether the fault indication (the three-flash LED
sequence) was emitted this cycle. -/
def cycleStep (s : CycleState) (i : CycleInput) : CycleState × Bool :=
  let s1 := processButton s i.userPress
  let s2 := readStep s1 i
  let tempAvg := average s2.t 255
  let humiAvg := average s2.h 255
  let voltAvg := average s2.v 65534
  ({ s2 with fan := Code.decide tempAvg humiAvg voltAvg s2.power }, !i.ok)

/-- Iterated cycles of the 10-sample variant under a list of per-cycle
inputs. -/
def run (s : CycleState) (is : List CycleInput) : CycleState :=
  is.foldl (fun a i => (cycleStep a i).1) s

end Code

/-- The claim formula for the temperature candidate of the High branch:
`min(BASE + (tempAvg - TEMP_TRIGGER) * TEMP_SLOPE, MAX)` when
`tempAvg ≥ TEMP_TRIGGER` and 0 otherwise, with trigger 28, slope 40,
base 95 and maximum 255, in exact integer arithmetic as the specification
states it. -/
def specFanFromTemp (tempAvg : Nat) : Nat :=
  if 28 ≤ tempAvg then min (95 + (tempAvg - 28) * 40) 255 else 0

/-- The claim formula for the humidity candidate of the High branch, the
analogous expression with trigger 70 and slope 8. -/
def specFanFromHumidity (humiAvg : Nat) : Nat :=
  if 70 ≤ humiAvg then min (95 + (humiAvg - 70) * 8) 255 else 0

/-- The claim formula for the trimmed average: the sum of the buffered
samples minus one maximum instance minus one minimum instance, divided by
`N - 2` exactly and rounded to the nearest integer, halves away from
zero. -/
def specTrimmedAvg (l : List Nat) (n : Nat) : Nat :=
  roundDiv (l.sum - listMax l - listMin l) (n - 2)

/-- A concrete 5-sample-variant cycle state in mode `off` with the
timestamp at 0, used to exercise the state machine at explicit inputs. -/
def s5off : Software.CycleState :=
  { power := Powerstates.off, lastButton := 0, led := 0,
    t := [24, 24, 24, 24, 24], h := [60, 60, 60, 60, 60],
    v := [238, 238, 238, 238, 238], index := 0, fan := 0 }

/-- A concrete 10-sample-variant cycle state in mode `low`, used to
exercise the state machine at explicit inputs. -/
def s10low : Code.CycleState :=
  { power := Powerstates.low, led := 10,
    t := [24, 24, 24, 24, 24, 24, 24, 24, 24, 24],
    h := [60, 60, 60, 60, 60, 60, 60, 60, 60, 60],
    v := [238, 238, 238, 238, 238, 238, 238, 238, 238, 238],
    index := 0, fan := 0 }

/-- A concrete cycle input with no button press, a time one millisecond
past the resume timeout, and a good reading. -/
def iResume : CycleInput :=
  { userPress := false, now := 10800001, tempRaw := 24, humiRaw := 60,
    voltRaw := 238, ok := true }

/-- A concrete cycle input with a button press and a good reading. -/
def iPress : CycleInput :=
  { userPress := true, now := 5000, tempRaw := 24, humiRaw := 60,
    voltRaw := 238, ok := true }

/-- A concrete cycle input with no button press and a failed reading. -/
def iBad : CycleInput :=
  { userPress := false, now := 5000, tempRaw := 24, humiRaw := 60,
    voltRaw := 238, ok := false }

/-- Unrolling of the statistics fold from an arbitrary accumulator: the
total accumulates the list sum and the extrema accumulate by folded max
and min. -/
lemma stats_foldl (l : List Nat) (a : Stats) :
    l.foldl statsStep a =
      { tot := a.tot + l.sum, mx := l.foldl max a.mx, mn := l.foldl min a.mn } := by
  induction l generalizing a with
  | nil => simp
  | cons x xs ih => simp [statsStep, ih, Nat.add_assoc]

/-- The statistics pass computes the list sum, the folded maximum from 0
and the folded minimum from the channel-specific initial value. -/
lemma stats_eq (l : List Nat) (m0 : Nat) :
    stats l m0 = { tot := l.sum, mx := listMax l, mn := l.foldl min m0 } := by
  simp [stats, stats_foldl, listMax]

/-- When the initial minimum dominates every sample, the folded minimum is
the genuine minimum of the samples. -/
lemma foldl_min_of_le (l : List Nat) (m0 : Nat) (hne : l ≠ [])
    (hb : ∀ x ∈ l, x ≤ m0) : l.foldl min m0 = listMin l := by
  cases l with
  | nil => exact absurd rfl hne
  | cons x xs =>
    have hx : x ≤ m0 := hb x (by simp)
    simp [listMin, min_eq_right hx]

/-- Claim C3 (amended): for every non-empty channel buffer whose samples
are dominated by the initial running minimum, the 5-sample variant
computes exactly the claimed trimmed average, the exact quotient by 3
rounded half away from zero; the 10-sample variant computes the same
trimmed sum but divides by 8 with truncating integer division (its ceil
wraps an already-integral quotient). -/
theorem C3_trimmed_average (l : List Nat) (m0 : Nat) (hne : l ≠ [])
    (hb : ∀ x ∈ l, x ≤ m0) :
    Software.average l m0 = specTrimmedAvg l 5 ∧
    Code.average l m0 = (l.sum - listMax l - listMin l) / 8 := by
  constructor <;>
    simp [Software.average, Code.average, specTrimmedAvg, stats_eq,
      foldl_min_of_le l m0 hne hb]

/-- Witness for C3 at the buffer of the specification scenario,
(20, 22, 21, 23, 100): max 100 and min 20 are dropped and the average is
22 in both renderings. -/
theorem C3_witness :
    Software.average [20, 22, 21, 23, 100] 255 = specTrimmedAvg [20, 22, 21, 23, 100] 5 ∧
    Code.average [20, 22, 21, 23, 100] 255 =
      ([20, 22, 21, 23, 100].sum - listMax [20, 22, 21, 23, 100] -
        listMin [20, 22, 21, 23, 100]) / 8 :=
  C3_trimmed_average [20, 22, 21, 23, 100] 255 (by decide) (by decide)

/-- Counterexample to claim C3 as stated: in the 10-sample variant a
buffer with trimmed sum 12 averages to 12 / 8 = 1 by the code, while the
claimed round-half-away-from-zero rule demands 2. -/
theorem C3_counterexample :
    Code.average [5, 4, 4, 4, 0, 0, 0, 0, 0, 0] 255 = 1 ∧
    specTrimmedAvg [5, 4, 4, 4, 0, 0, 0, 0, 0, 0] 10 = 2 := by
  constructor <;> rfl

/-- Claim C4: both variants force duty 0 whenever the voltage average is
strictly below the low-voltage threshold or the mode is Off, regardless
of temperature and humidity. -/
theorem C4_low_voltage_or_off (tempAvg humiAvg voltAvg : Nat) (power : Powerstates)
    (h : voltAvg < Software.VIN_LOW ∨ power = Powerstates.off) :
    Software.decide tempAvg humiAvg voltAvg power = 0 ∧
    Code.decide tempAvg humiAvg voltAvg power = 0 := by
  have h2 : voltAvg < Code.VIN_LOW ∨ power = Powerstates.off := h
  rw [Software.decide, Code.decide, if_pos h, if_pos h2]
  exact ⟨rfl, rfl⟩

/-- Witness for C4 at the specification scenario: voltage average 200,
mode High, temperature average 35 gives duty 0 in both variants. -/
theorem C4_witness :
    Software.decide 35 50 200 Powerstates.high = 0 ∧
    Code.decide 35 50 200 Powerstates.high = 0 :=
  C4_low_voltage_or_off 35 50 200 Powerstates.high (Or.inl (by decide))


/-- Claim C1 (amended): with a healthy battery and mode High, the
5-sample variant returns the maximum of the two proportional candidates
exactly as the specification formula states (on the clamped sensor
domains, temperature at most 40 and humidity at most 100), and the
temperature candidate at average 32 is 255; the 10-sample variant instead
returns FAN_HIGH unconditionally in this branch. -/
theorem C1_high_mode_ramp (tempAvg humiAvg voltAvg : Nat)
    (ht : tempAvg ≤ 40) (hh : humiAvg ≤ 100) (hv : Software.VIN_GOOD ≤ voltAvg) :
    Software.decide tempAvg humiAvg voltAvg Powerstates.high =
      max (specFanFromTemp tempAvg) (specFanFromHumidity humiAvg) ∧
    Code.decide tempAvg humiAvg voltAvg Powerstates.high = Code.FAN_HIGH ∧
    specFanFromTemp 32 = 255 := by
  rw [Software.VIN_GOOD] at hv
  have hA : ¬ (voltAvg < 222 ∨ Powerstates.high = Powerstates.off) := by
    rintro (h1 | h2)
    · omega
    · exact Powerstates.noConfusion h2
  have hB : ¬ (voltAvg < 235 ∨ Powerstates.high = Powerstates.low) := by
    rintro (h1 | h2)
    · omega
    · exact Powerstates.noConfusion h2
  have e1 : (95 + (tempAvg - 28) * 40) % 65536 = 95 + (tempAvg - 28) * 40 :=
    Nat.mod_eq_of_lt (by omega)
  have e2 : (95 + (humiAvg - 70) * 8) % 65536 = 95 + (humiAvg - 70) * 8 :=
    Nat.mod_eq_of_lt (by omega)
  refine ⟨?_, ?_, by decide⟩
  · simp only [Software.decide, Software.VIN_LOW, Software.VIN_GOOD, Software.FAN_LOW,
      Software.FAN_HIGH, Software.TEMP_TRIGGER, Software.HUMI_TRIGGER, Software.TEMP_RISE,
      Software.HUMI_RISE, U16, specFanFromTemp, specFanFromHumidity]
    rw [if_neg hA, if_neg hB, e1, e2]
  · simp only [Code.decide, Code.VIN_LOW, Code.VIN_GOOD]
    rw [if_neg hA, if_neg hB]

/-- Witness for C1 at the specification scenario, temperature average 32
with a healthy battery. -/
theorem C1_witness :
    Software.decide 32 50 240 Powerstates.high =
      max (specFanFromTemp 32) (specFanFromHumidity 50) ∧
    Code.decide 32 50 240 Powerstates.high = Code.FAN_HIGH ∧
    specFanFromTemp 32 = 255 :=
  C1_high_mode_ramp 32 50 240 (by decide) (by decide) (by decide)

/-- Counterexample to claim C1 as stated: at temperature average 20 and
humidity average 50 (both below their triggers), healthy battery, mode
High, both claimed candidates are 0, yet the 10-sample variant cited by
the claim outputs 255. -/
theorem C1_counterexample :
    Code.decide 20 50 240 Powerstates.high = 255 ∧
    max (specFanFromTemp 20) (specFanFromHumidity 50) = 0 := by
  constructor <;> rfl

/-- Claim C2 (amended): with the battery at or above the low threshold and
mode not Off, whenever the battery is below the good threshold or the mode
is Low, the 5-sample variant returns FAN_LOW exactly when the temperature
average strictly exceeds its trigger or the humidity average strictly
exceeds its trigger, and 0 otherwise; the 10-sample variant returns its
FAN_LOW unconditionally in this branch, with no temperature or humidity
test. -/
theorem C2_low_branch (tempAvg humiAvg voltAvg : Nat) (power : Powerstates)
    (hv : Software.VIN_LOW ≤ voltAvg) (hm : power ≠ Powerstates.off)
    (hbr : voltAvg < Software.VIN_GOOD ∨ power = Powerstates.low) :
    Software.decide tempAvg humiAvg voltAvg power =
      (if Software.TEMP_TRIGGER < tempAvg ∨ Software.HUMI_TRIGGER < humiAvg
        then Software.FAN_LOW else 0) ∧
    Code.decide tempAvg humiAvg voltAvg power = Code.FAN_LOW := by
  rw [Software.VIN_LOW] at hv
  rw [Software.VIN_GOOD] at hbr
  have hA : ¬ (voltAvg < 222 ∨ power = Powerstates.off) := by
    rintro (h1 | h2)
    · omega
    · exact hm h2
  constructor
  · simp only [Software.decide, Software.VIN_LOW, Software.VIN_GOOD, Software.FAN_OFF]
    rw [if_neg hA, if_pos hbr]
  · simp only [Code.decide, Code.VIN_LOW, Code.VIN_GOOD]
    rw [if_neg hA, if_pos hbr]

/-- Witness for C2 at the specification scenario: temperature average 29
(just past the trigger 28), marginal battery 230, mode High. -/
theorem C2_witness :
    Software.decide 29 50 230 Powerstates.high =
      (if Software.TEMP_TRIGGER < 29 ∨ Software.HUMI_TRIGGER < 50
        then Software.FAN_LOW else 0) ∧
    Code.decide 29 50 230 Powerstates.high = Code.FAN_LOW :=
  C2_low_branch 29 50 230 Powerstates.high (by decide) (by decide) (Or.inl (by decide))

/-- Counterexample to claim C2 as stated: at temperature average 20 and
humidity average 50, both at or below their triggers, voltage 230 in the
marginal band and mode High, the claim requires duty 0, yet the
10-sample variant cited by the claim outputs its fixed level 96. -/
theorem C2_counterexample :
    Code.decide 20 50 230 Powerstates.high = 96 ∧
    Code.decide 20 50 230 Powerstates.high ≠ 0 := by
  constructor
  · rfl
  · decide

/-- Claim C8: holding humidity, a healthy battery and mode High fixed, the
5-sample decision is monotonically non-decreasing in the temperature
average from the trigger up through the clamped temperature domain. -/
theorem C8_temp_monotone (humiAvg voltAvg t1 t2 : Nat)
    (hv : Software.VIN_GOOD ≤ voltAvg) (h1 : Software.TEMP_TRIGGER ≤ t1)
    (h12 : t1 ≤ t2) (h2 : t2 ≤ 40) :
    Software.decide t1 humiAvg voltAvg Powerstates.high ≤
      Software.decide t2 humiAvg voltAvg Powerstates.high := by
  rw [Software.VIN_GOOD] at hv
  rw [Software.TEMP_TRIGGER] at h1
  have hA : ¬ (voltAvg < 222 ∨ Powerstates.high = Powerstates.off) := by
    rintro (ha | hb)
    · omega
    · exact Powerstates.noConfusion hb
  have hB : ¬ (voltAvg < 235 ∨ Powerstates.high = Powerstates.low) := by
    rintro (ha | hb)
    · omega
    · exact Powerstates.noConfusion hb
  have e1 : (95 + (t1 - 28) * 40) % 65536 = 95 + (t1 - 28) * 40 :=
    Nat.mod_eq_of_lt (by omega)
  have e2 : (95 + (t2 - 28) * 40) % 65536 = 95 + (t2 - 28) * 40 :=
    Nat.mod_eq_of_lt (by omega)
  simp only [Software.decide, Software.VIN_LOW, Software.VIN_GOOD, Software.FAN_LOW,
    Software.FAN_HIGH, Software.TEMP_TRIGGER, Software.HUMI_TRIGGER, Software.TEMP_RISE,
    Software.HUMI_RISE, U16]
  rw [if_neg hA, if_neg hB, if_neg hA, if_neg hB, if_pos (show 28 ≤ t1 by omega),
    if_pos (show 28 ≤ t2 by omega), e1, e2]
  exact max_le_max (by omega) le_rfl

/-- Witness for C8 at temperature averages 29 and 31 with humidity 50 and
voltage 240. -/
theorem C8_witness :
    Software.decide 29 50 240 Powerstates.high ≤
      Software.decide 31 50 240 Powerstates.high :=
  C8_temp_monotone 50 240 29 31 (by decide) (by decide) (by decide) (by decide)

/-- The auto-resume flag is set exactly when the mode is not High and the
elapsed time since the last recorded transition exceeds the resume
timeout. -/
lemma Software.autoResume_eq_true (pw : Powerstates) (lb now : Nat) :
    Software.autoResume pw lb now = true ↔
      (pw ≠ Powerstates.high ∧ Software.RESUMETIME < (now - lb) % U32) := by
  unfold Software.autoResume
  split
  · simp [*]
  · simp [*]

/-- The button block never touches the sample buffers, the write index or
the fan duty. -/
lemma Software.processButton_frame (s : Software.CycleState) (p : Bool) (now : Nat) :
    (Software.processButton s p now).t = s.t ∧
    (Software.processButton s p now).h = s.h ∧
    (Software.processButton s p now).v = s.v ∧
    (Software.processButton s p now).index = s.index ∧
    (Software.processButton s p now).fan = s.fan := by
  obtain ⟨pw, lb, ld, tb, hb, vb, idx, fn⟩ := s
  simp only [Software.processButton]
  split
  · cases pw <;> exact ⟨rfl, rfl, rfl, rfl, rfl⟩
  · exact ⟨rfl, rfl, rfl, rfl, rfl⟩

/-- The reading block never changes the power mode. -/
lemma Software.readStep_power (s : Software.CycleState) (i : CycleInput) :
    (Software.readStep s i).power = s.power := by
  simp only [Software.readStep]
  split <;> rfl

/-- The power mode after a full cycle is the mode the button block
selected: the rest of the cycle leaves it alone. -/
lemma Software.cycleStep_power (s : Software.CycleState) (i : CycleInput) :
    (Software.cycleStep s i).1.power = (Software.processButton s i.userPress i.now).power := by
  simp only [Software.cycleStep]
  exact Software.readStep_power _ _

/-- A pressed button rotates the power mode one step. -/
lemma Software.processButton_press_power (s : Software.CycleState) (now : Nat) :
    (Software.processButton s true now).power = s.power.next := by
  obtain ⟨pw, lb, ld, tb, hb, vb, idx, fn⟩ := s
  cases pw <;> rfl

/-- With a failed reading the reading block is the identity on the cycle
state. -/
lemma Software.readStep_skip (s : Software.CycleState) (i : CycleInput)
    (hok : i.ok = false) : Software.readStep s i = s := by
  simp only [Software.readStep, hok]
  rfl

/-- The 10-sample button block never touches the sample buffers, the
write index or the fan duty. -/
lemma Code.processButton_frame10 (c : Code.CycleState) (p : Bool) :
    (Code.processButton c p).t = c.t ∧
    (Code.processButton c p).h = c.h ∧
    (Code.processButton c p).v = c.v ∧
    (Code.processButton c p).index = c.index ∧
    (Code.processButton c p).fan = c.fan := by
  obtain ⟨pw, ld, tb, hb, vb, idx, fn⟩ := c
  simp only [Code.processButton]
  split
  · cases pw <;> exact ⟨rfl, rfl, rfl, rfl, rfl⟩
  · exact ⟨rfl, rfl, rfl, rfl, rfl⟩

/-- The 10-sample reading block never changes the power mode. -/
lemma Code.readStep_power10 (c : Code.CycleState) (i : CycleInput) :
    (Code.readStep c i).power = c.power := by
  simp only [Code.readStep]
  split <;> rfl

/-- The power mode after a full 10-sample cycle is the mode the button
block selected. -/
lemma Code.cycleStep_power10 (c : Code.CycleState) (i : CycleInput) :
    (Code.cycleStep c i).1.power = (Code.processButton c i.userPress).power := by
  simp only [Code.cycleStep]
  exact Code.readStep_power10 _ _

/-- A pressed button rotates the 10-sample power mode one step. -/
lemma Code.processButton_press_power10 (c : Code.CycleState) :
    (Code.processButton c true).power = c.power.next := by
  obtain ⟨pw, ld, tb, hb, vb, idx, fn⟩ := c
  cases pw <;> rfl

/-- Without a press the 10-sample button block is the identity. -/
lemma Code.processButton_skip10 (c : Code.CycleState) :
    Code.processButton c false = c := rfl

/-- With a failed reading the 10-sample reading block is the identity. -/
lemma Code.readStep_skip10 (c : Code.CycleState) (i : CycleInput)
    (hok : i.ok = false) : Code.readStep c i = c := by
  simp only [Code.readStep, hok]
  rfl

/-- Claim C5: in the 5-sample variant, if a cycle with no observed button
press changes the power mode, then the mode was not High and more than
the resume timeout had elapsed since the last recorded transition: the
auto-resume never fires in mode High nor before the timeout. -/
theorem C5_auto_resume_guard (s : Software.CycleState) (i : CycleInput)
    (hp : i.userPress = false)
    (hfire : (Software.cycleStep s i).1.power ≠ s.power) :
    s.power ≠ Powerstates.high ∧
    Software.RESUMETIME < (i.now - s.lastButton) % U32 := by
  rw [Software.cycleStep_power] at hfire
  by_cases har : Software.autoResume s.power s.lastButton i.now = true
  · exact (Software.autoResume_eq_true s.power s.lastButton i.now).mp har
  · exfalso
    rw [Bool.not_eq_true] at har
    have hb : (i.userPress || Software.autoResume s.power s.lastButton i.now) = false := by
      simp [hp, har]
    have hid : Software.processButton s i.userPress i.now = s := by
      unfold Software.processButton
      rw [if_neg (by simp [hb])]
    rw [hid] at hfire
    exact hfire rfl

/-- Witness for C5: from mode Off with the timestamp at 0, a press-free
cycle at one millisecond past the timeout changes the mode, and the
guard conditions indeed held. -/
theorem C5_witness :
    s5off.power ≠ Powerstates.high ∧
    Software.RESUMETIME < (iResume.now - s5off.lastButton) % U32 :=
  C5_auto_resume_guard s5off iResume rfl (by decide)

/-- Counterexample to claim C6 as stated: in the 5-sample variant (the
only variant that has the timestamp and the auto-resume), an
auto-resume-triggered transition does update the timestamp.  From mode
Off with the timestamp at 0, a press-free button pass one millisecond
past the timeout fires auto-resume, rotates the mode to Low, and sets the
timestamp to the current time. -/
theorem C6_counterexample :
    s5off.lastButton = 0 ∧
    Software.autoResume s5off.power s5off.lastButton 10800001 = true ∧
    (Software.processButton s5off false 10800001).power = Powerstates.low ∧
    (Software.processButton s5off false 10800001).lastButton = 10800001 := by
  refine ⟨rfl, by decide, by decide, by decide⟩

/-- Claim C6 (amended): the timestamp is set to the current time on every
transition the button block performs, whether triggered by an explicit
press or by auto-resume, and the button block leaves the sample buffers,
the write index and the fan duty untouched. -/
theorem C6_timestamp_update (s : Software.CycleState) (p : Bool) (now : Nat)
    (hfire : p = true ∨ Software.autoResume s.power s.lastButton now = true) :
    (Software.processButton s p now).lastButton = now ∧
    (Software.processButton s p now).t = s.t ∧
    (Software.processButton s p now).h = s.h ∧
    (Software.processButton s p now).v = s.v ∧
    (Software.processButton s p now).index = s.index ∧
    (Software.processButton s p now).fan = s.fan := by
  have hb : (p || Software.autoResume s.power s.lastButton now) = true := by
    rcases hfire with h | h <;> simp [h]
  refine ⟨?_, Software.processButton_frame s p now⟩
  obtain ⟨pw, lb, ld, tb, hbuf, vb, idx, fn⟩ := s
  simp only [Software.processButton]
  rw [if_pos hb]
  cases pw <;> rfl

/-- Witness for C6 at the auto-resume transition of the concrete Off
state. -/
theorem C6_witness :
    (Software.processButton s5off false 10800001).lastButton = 10800001 ∧
    (Software.processButton s5off false 10800001).t = s5off.t ∧
    (Software.processButton s5off false 10800001).h = s5off.h ∧
    (Software.processButton s5off false 10800001).v = s5off.v ∧
    (Software.processButton s5off false 10800001).index = s5off.index ∧
    (Software.processButton s5off false 10800001).fan = s5off.fan :=
  C6_timestamp_update s5off false 10800001 (Or.inr (by decide))

/-- Claim C7: a cycle with an observed button press rotates the power
mode exactly one step of the fixed cycle Off to Low to High to Off in
both variants, and three rotations are the identity. -/
theorem C7_press_rotation (s : Software.CycleState) (c : Code.CycleState)
    (i : CycleInput) (m : Powerstates) (hp : i.userPress = true) :
    (Software.cycleStep s i).1.power = s.power.next ∧
    (Code.cycleStep c i).1.power = c.power.next ∧
    Powerstates.off.next = Powerstates.low ∧
    Powerstates.low.next = Powerstates.high ∧
    Powerstates.high.next = Powerstates.off ∧
    m.next.next.next = m := by
  refine ⟨?_, ?_, rfl, rfl, rfl, by cases m <;> rfl⟩
  · rw [Software.cycleStep_power, hp, Software.processButton_press_power]
  · rw [Code.cycleStep_power10, hp, Code.processButton_press_power10]

/-- Witness for C7 at the concrete Off and Low states under a pressed
cycle. -/
theorem C7_witness :
    (Software.cycleStep s5off iPress).1.power = s5off.power.next ∧
    (Code.cycleStep s10low iPress).1.power = s10low.power.next ∧
    Powerstates.off.next = Powerstates.low ∧
    Powerstates.low.next = Powerstates.high ∧
    Powerstates.high.next = Powerstates.off ∧
    Powerstates.high.next.next.next = Powerstates.high :=
  C7_press_rotation s5off s10low iPress Powerstates.high rfl

/-- Claim C9: in both variants, a cycle whose reading is reported invalid
leaves all three sample buffers and the shared write index unchanged,
emits the fault indication, and still completes: in the 5-sample variant
the fan duty is still computed from the stale averages and the mode the
button block selected. -/
theorem C9_invalid_reading (s : Software.CycleState) (c : Code.CycleState)
    (i : CycleInput) (hok : i.ok = false) :
    (Software.cycleStep s i).1.t = s.t ∧
    (Software.cycleStep s i).1.h = s.h ∧
    (Software.cycleStep s i).1.v = s.v ∧
    (Software.cycleStep s i).1.index = s.index ∧
    (Software.cycleStep s i).2 = true ∧
    (Software.cycleStep s i).1.fan =
      Software.decide (Software.average s.t 255) (Software.average s.h 255)
        (Software.average s.v 65534)
        (Software.processButton s i.userPress i.now).power ∧
    (Code.cycleStep c i).1.t = c.t ∧
    (Code.cycleStep c i).1.h = c.h ∧
    (Code.cycleStep c i).1.v = c.v ∧
    (Code.cycleStep c i).1.index = c.index ∧
    (Code.cycleStep c i).2 = true := by
  obtain ⟨hft, hfh, hfv, hfi, hff⟩ := Software.processButton_frame s i.userPress i.now
  obtain ⟨gft, gfh, gfv, gfi, gff⟩ := Code.processButton_frame10 c i.userPress
  have hr : ∀ x : Software.CycleState, Software.readStep x i = x :=
    fun x => Software.readStep_skip x i hok
  have gr : ∀ x : Code.CycleState, Code.readStep x i = x :=
    fun x => Code.readStep_skip10 x i hok
  simp only [Software.cycleStep, Code.cycleStep, hr, gr, hok, Bool.not_false]
  exact ⟨hft, hfh, hfv, hfi, trivial, by rw [hft, hfh, hfv], gft, gfh, gfv, gfi, trivial⟩

/-- Witness for C9 at the concrete states and the failed-reading input. -/
theorem C9_witness :
    (Software.cycleStep s5off iBad).1.t = s5off.t ∧
    (Software.cycleStep s5off iBad).1.h = s5off.h ∧
    (Software.cycleStep s5off iBad).1.v = s5off.v ∧
    (Software.cycleStep s5off iBad).1.index = s5off.index ∧
    (Software.cycleStep s5off iBad).2 = true ∧
    (Software.cycleStep s5off iBad).1.fan =
      Software.decide (Software.average s5off.t 255) (Software.average s5off.h 255)
        (Software.average s5off.v 65534)
        (Software.processButton s5off iBad.userPress iBad.now).power ∧
    (Code.cycleStep s10low iBad).1.t = s10low.t ∧
    (Code.cycleStep s10low iBad).1.h = s10low.h ∧
    (Code.cycleStep s10low iBad).1.v = s10low.v ∧
    (Code.cycleStep s10low iBad).1.index = s10low.index ∧
    (Code.cycleStep s10low iBad).2 = true :=
  C9_invalid_reading s5off s10low iBad rfl

/-- Claim C10: in the 10-sample variant the power mode changes only in
the button handler, so any sequence of cycles without an observed button
press leaves the power mode exactly where it was: there is no auto-resume
in this variant and a manually selected mode persists without user
action. -/
theorem C10_no_auto_resume (c : Code.CycleState) (is : List CycleInput)
    (h : ∀ i ∈ is, i.userPress = false) :
    (Code.run c is).power = c.power := by
  revert h
  induction is generalizing c with
  | nil => intro h; rfl
  | cons i tl ih =>
    intro h
    have hi : i.userPress = false := h i (List.mem_cons_self i tl)
    have htl : ∀ j ∈ tl, j.userPress = false := fun j hj => h j (List.mem_cons_of_mem i hj)
    have step : (Code.cycleStep c i).1.power = c.power := by
      rw [Code.cycleStep_power10, hi, Code.processButton_skip10]
    calc (Code.run c (i :: tl)).power
        = (Code.run (Code.cycleStep c i).1 tl).power := rfl
      _ = (Code.cycleStep c i).1.power := ih _ htl
      _ = c.power := step

/-- Witness for C10: two press-free cycles (one failed reading, one good)
leave the concrete Low state in mode Low. -/
theorem C10_witness : (Code.run s10low [iBad, iResume]).power = s10low.power :=
  C10_no_auto_resume s10low [iBad, iResume] (by decide)
